import Mathlib

/-!
Verification of the n8n monitoring facade (`src/utils/n8n_monitor_sync.py`).

The Python module is shallowly embedded: JSON/Python values become the `Json`
inductive (Python dict keys may be arbitrary values, hence object entries are
`Json × Json` pairs), the `requests` transport becomes an explicit oracle
`Http`, Python exceptions become the `PyM` (`Except PyExc`) monad where
`PyExc.request` models `requests.exceptions.RequestException` and
`PyExc.other` every other exception, and each public method of `N8nMonitor`
becomes a total Lean function returning the `Json` value the method returns.
`self.webhook_url` (read from the environment at construction) is passed as an
explicit `url : String` argument; the absent environment variable corresponds
to `url = ""`.  Statements of the form "the operation issues no HTTP request"
are rendered as: the result is the same for every transport oracle.
-/

namespace N8n

/-- Python/JSON values.  Numbers are modelled as rationals (Python ints and
the floats reachable in this code are decimal literals; exact comparison with
the thresholds 10 and 25 agrees with IEEE doubles for all percentage strings
of realistic precision).  Object entries keep insertion order, like Python
dicts, and keys may be arbitrary values, as in Python. -/
inductive Json where
  | null
  | bool (b : Bool)
  | num (q : ℚ)
  | str (s : String)
  | arr (elems : List Json)
  | obj (entries : List (Json × Json))

mutual

/-- Structural boolean equality, modelling Python `==` on JSON-like data. -/
def Json.beq : Json → Json → Bool
  | .null, .null => true
  | .bool a, .bool b => a == b
  | .num a, .num b => a == b
  | .str a, .str b => a == b
  | .arr a, .arr b => Json.beqList a b
  | .obj a, .obj b => Json.beqEntries a b
  | _, _ => false

/-- Pointwise `Json.beq` on lists. -/
def Json.beqList : List Json → List Json → Bool
  | [], [] => true
  | a :: as, b :: bs => Json.beq a b && Json.beqList as bs
  | _, _ => false

/-- Pointwise `Json.beq` on object entry lists. -/
def Json.beqEntries : List (Json × Json) → List (Json × Json) → Bool
  | [], [] => true
  | (k, v) :: as, (l, w) :: bs => Json.beq k l && Json.beq v w && Json.beqEntries as bs
  | _, _ => false

end

mutual

theorem Json.beq_iff : ∀ a b : Json, Json.beq a b = true ↔ a = b
  | .null, .null => by simp [Json.beq]
  | .bool a, .bool b => by simp [Json.beq]
  | .num a, .num b => by simp [Json.beq]
  | .str a, .str b => by simp [Json.beq]
  | .arr a, .arr b => by simp [Json.beq, Json.beqList_iff a b]
  | .obj a, .obj b => by simp [Json.beq, Json.beqEntries_iff a b]
  | .null, .bool _ | .null, .num _ | .null, .str _ | .null, .arr _ | .null, .obj _
  | .bool _, .null | .bool _, .num _ | .bool _, .str _ | .bool _, .arr _ | .bool _, .obj _
  | .num _, .null | .num _, .bool _ | .num _, .str _ | .num _, .arr _ | .num _, .obj _
  | .str _, .null | .str _, .bool _ | .str _, .num _ | .str _, .arr _ | .str _, .obj _
  | .arr _, .null | .arr _, .bool _ | .arr _, .num _ | .arr _, .str _ | .arr _, .obj _
  | .obj _, .null | .obj _, .bool _ | .obj _, .num _ | .obj _, .str _ | .obj _, .arr _ => by
      simp [Json.beq]

theorem Json.beqList_iff : ∀ a b : List Json, Json.beqList a b = true ↔ a = b
  | [], [] => by simp [Json.beqList]
  | a :: as, b :: bs => by
      simp [Json.beqList, Json.beq_iff a b, Json.beqList_iff as bs]
  | [], _ :: _ => by simp [Json.beqList]
  | _ :: _, [] => by simp [Json.beqList]

theorem Json.beqEntries_iff :
    ∀ a b : List (Json × Json), Json.beqEntries a b = true ↔ a = b
  | [], [] => by simp [Json.beqEntries]
  | (k, v) :: as, (l, w) :: bs => by
      simp [Json.beqEntries, Json.beq_iff k l, Json.beq_iff v w, Json.beqEntries_iff as bs,
        Prod.ext_iff, and_assoc]
  | [], _ :: _ => by simp [Json.beqEntries]
  | _ :: _, [] => by simp [Json.beqEntries]

end

instance : DecidableEq Json := fun a b =>
  decidable_of_iff (Json.beq a b = true) (Json.beq_iff a b)

/-- Python type name of a value, used in exception messages. -/
def Json.typeName : Json → String
  | .null => "NoneType"
  | .bool _ => "bool"
  | .num q => if q.den = 1 then "int" else "float"
  | .str _ => "str"
  | .arr _ => "list"
  | .obj _ => "dict"

/-- Python `isinstance(x, dict)`. -/
def Json.isDict : Json → Bool
  | .obj _ => true
  | _ => false

/-- Python truthiness of a JSON-like value. -/
def Json.truthy : Json → Bool
  | .null => false
  | .bool b => b
  | .num q => decide (q ≠ 0)
  | .str s => decide (s ≠ "")
  | .arr xs => !xs.isEmpty
  | .obj kvs => !kvs.isEmpty

/-- First-match association lookup in an object entry list; combined with
`alInsert` below (which overwrites in place) this models Python dict lookup. -/
def alGet : List (Json × Json) → Json → Option Json
  | [], _ => none
  | (k, v) :: kvs, key => if k = key then some v else alGet kvs key

/-- Python `d[key] = val`: overwrite the existing entry in place, else append. -/
def alInsert : List (Json × Json) → Json → Json → List (Json × Json)
  | [], key, val => [(key, val)]
  | (k, v) :: kvs, key, val =>
      if k = key then (k, val) :: kvs else (k, v) :: alInsert kvs key val

/-- Python exceptions, split exactly as the `except` clauses of the source
distinguish them: `requests.exceptions.RequestException` versus everything
else.  The payload is `str(e)`. -/
inductive PyExc where
  | request (msg : String)
  | other (msg : String)

/-- Python `str(e)` on an exception. -/
def PyExc.msg : PyExc → String
  | .request m => m
  | .other m => m

/-- Computations that may raise a Python exception. -/
abbrev PyM (α : Type) := Except PyExc α

/-- Python `x.get(key, default)`: raises `AttributeError` unless `x` is a
dict. -/
def pyDictGet (j key d : Json) : PyM Json :=
  match j with
  | .obj kvs => .ok ((alGet kvs key).getD d)
  | j => .error (.other ("AttributeError: \x27" ++ j.typeName ++
      "\x27 object has no attribute \x27get\x27"))

/-- Python iteration `for x in c`: lists yield elements, strings yield
one-character strings, dicts yield their keys, all else raises `TypeError`.
`len(c)` agrees with the length of this list for every iterable case. -/
def pyIter : Json → PyM (List Json)
  | .arr xs => .ok xs
  | .str s => .ok (s.toList.map fun c => .str (String.singleton c))
  | .obj kvs => .ok (kvs.map fun kv => kv.1)
  | j => .error (.other ("TypeError: \x27" ++ j.typeName ++
      "\x27 object is not iterable"))

/-- Substring test on character lists (Python `needle in haystack` for
strings). -/
def strIncl (n : List Char) : List Char → Bool
  | [] => n.isEmpty
  | h@(_ :: t) => n.isPrefixOf h || strIncl n t

/-- Python membership `x in c`: key membership for dicts, element membership
for lists, substring test for strings, `TypeError` otherwise. -/
def pyIn (x c : Json) : PyM Bool :=
  match c with
  | .obj kvs => .ok (kvs.any fun kv => decide (kv.1 = x))
  | .arr xs => .ok (xs.any fun y => decide (y = x))
  | .str s =>
      match x with
      | .str t => .ok (strIncl t.toList s.toList)
      | x => .error (.other ("TypeError: \x27in <string>\x27 requires string as left operand, not " ++
          x.typeName))
  | c => .error (.other ("TypeError: argument of type \x27" ++ c.typeName ++
      "\x27 is not iterable"))

/-- Python `s.rstrip("%")`: drop every trailing percent sign. -/
def stripPct (s : String) : String :=
  ((s.toList.reverse.dropWhile (· = '%')).reverse).asString

/-- Digit run to a natural number. -/
def digitsToNat (ds : List Char) : Nat :=
  ds.foldl (fun a c => a * 10 + (c.toNat - 48)) 0

/-- Unsigned decimal literal (`"12"`, `"12.5"`, `".5"`, `"12."`); the value
`ip.frac` is the rational `(ip·10^d + frac) / 10^d` built with `mkRat`. -/
def parseDecCore (cs : List Char) : Option ℚ :=
  let ip := cs.takeWhile Char.isDigit
  match cs.dropWhile Char.isDigit with
  | [] => if ip.isEmpty then none else some (mkRat (digitsToNat ip) 1)
  | '.' :: frac =>
      if frac.all Char.isDigit && !(ip.isEmpty && frac.isEmpty) then
        some (mkRat (digitsToNat ip * 10 ^ frac.length + digitsToNat frac) (10 ^ frac.length))
      else none
  | _ => none

/-- ASCII whitespace, for the leading/trailing stripping `float()` does. -/
def isSpaceChar (c : Char) : Bool :=
  c = ' ' || c = '\t' || c = '\n' || c = '\r' || c = '\x0b' || c = '\x0c'

/-- Strip leading and trailing whitespace from a character list. -/
def trimChars (cs : List Char) : List Char :=
  ((cs.dropWhile isSpaceChar).reverse.dropWhile isSpaceChar).reverse

/-- Python `float(s)` restricted to plain signed decimal literals, the only
shape the percentage strings of this program take; other accepted Python
forms (exponents, `inf`, `nan`, underscores) are out of the modelled
fragment, so here they raise like any unparsable string.  `none` models
`ValueError`. -/
def parseFloat? (s : String) : Option ℚ :=
  match trimChars s.toList with
  | '-' :: cs => (parseDecCore cs).map Rat.neg
  | '+' :: cs => parseDecCore cs
  | cs => parseDecCore cs

mutual

/-- Python `repr()` of a JSON-like value (used by `str()` on containers). -/
def Json.reprPy : Json → String
  | .null => "None"
  | .bool b => if b then "True" else "False"
  | .num q => if q.den = 1 then toString q.num else toString q
  | .str s => "\x27" ++ s ++ "\x27"
  | .arr xs => "[" ++ Json.reprList xs ++ "]"
  | .obj kvs => "\x7b" ++ Json.reprEntries kvs ++ "\x7d"

/-- Comma-joined `repr()` of list elements. -/
def Json.reprList : List Json → String
  | [] => ""
  | [x] => Json.reprPy x
  | x :: y :: xs => Json.reprPy x ++ ", " ++ Json.reprList (y :: xs)

/-- Comma-joined `repr()` of dict entries. -/
def Json.reprEntries : List (Json × Json) → String
  | [] => ""
  | [(k, v)] => Json.reprPy k ++ ": " ++ Json.reprPy v
  | (k, v) :: e :: kvs =>
      Json.reprPy k ++ ": " ++ Json.reprPy v ++ ", " ++ Json.reprEntries (e :: kvs)

end

/-- Python `str()` / f-string interpolation of a value. -/
def Json.renderPy : Json → String
  | .str s => s
  | j => j.reprPy

/-- Response of a completed HTTP exchange: status code, reason phrase, and
the JSON body (`Except.error` = the body fails to decode, `ValueError` from
`response.json()`). -/
structure HttpResp where
  status : Nat
  reason : String
  body : Except String Json

/-- Transport oracle: what the network does for a given URL and JSON payload.
`Except.error m` is a transport failure (connection refused, timeout, ...),
raised as `requests.exceptions.RequestException` with message `m`. -/
abbrev Http := String → Json → Except String HttpResp

/-- Message of `requests.exceptions.MissingSchema`, raised by
`requests.post` on an empty URL before any network activity. -/
def missingSchemaMsg : String :=
  "Invalid URL \x27\x27: No scheme supplied. Perhaps you meant https://?"

/-- `requests.post(url, json=payload, timeout=...)`: an empty URL raises
`MissingSchema` (a `RequestException`) without touching the network;
otherwise the transport oracle answers. -/
def requestsPost (http : Http) (url : String) (payload : Json) : PyM HttpResp :=
  if url = "" then .error (.request missingSchemaMsg)
  else
    match http url payload with
    | .error m => .error (.request m)
    | .ok r => .ok r

/-- `response.raise_for_status()`: 4xx/5xx statuses raise `HTTPError` (a
`RequestException`). -/
def raiseForStatus (url : String) (r : HttpResp) : PyM Unit :=
  if 400 ≤ r.status ∧ r.status < 500 then
    .error (.request (toString r.status ++ " Client Error: " ++ r.reason ++
      " for url: " ++ url))
  else if 500 ≤ r.status ∧ r.status < 600 then
    .error (.request (toString r.status ++ " Server Error: " ++ r.reason ++
      " for url: " ++ url))
  else .ok ()

/-- `response.json()`: a body that is not valid JSON raises `ValueError`. -/
def respJson (r : HttpResp) : PyM Json :=
  match r.body with
  | .error m => .error (.other m)
  | .ok j => .ok j

/-- The shared network step of every operation: `requests.post(...)`,
`response.raise_for_status()`, `response.json()`. -/
def fetchJson (http : Http) (url : String) (payload : Json) : PyM Json := do
  let r ← requestsPost http url payload
  raiseForStatus url r
  respJson r

/-- The five-field summary of one workflow dict (`n8n_monitor_sync.py`
lines 64-70): `wf.get` with the documented defaults; `archived` is a
comparison with the exact string `"true"`. -/
def summarizeWf (kvs : List (Json × Json)) : Json :=
  .obj [
    (.str "id", (alGet kvs (.str "id")).getD (.str "unknown")),
    (.str "name", (alGet kvs (.str "name")).getD (.str "Unnamed")),
    (.str "created", (alGet kvs (.str "createdAt")).getD (.str "")),
    (.str "updated", (alGet kvs (.str "updatedAt")).getD (.str "")),
    (.str "archived",
      .bool (decide ((alGet kvs (.str "isArchived")).getD (.str "false") = .str "true")))]

/-- One element of the workflow summary comprehension; a non-dict element
raises `AttributeError` on `.get`. -/
def wfSummaryEntry (wf : Json) : PyM Json :=
  match wf with
  | .obj kvs => .ok (summarizeWf kvs)
  | wf => .error (.other ("AttributeError: \x27" ++ wf.typeName ++
      "\x27 object has no attribute \x27get\x27"))

/-- `wf.get("name", "Unnamed")` for the summary names list (line 75). -/
def wfName (wf : Json) : PyM Json :=
  match wf with
  | .obj kvs => .ok ((alGet kvs (.str "name")).getD (.str "Unnamed"))
  | wf => .error (.other ("AttributeError: \x27" ++ wf.typeName ++
      "\x27 object has no attribute \x27get\x27"))

/-- A Python list comprehension over `PyM`: elements left to right, first
exception aborts. -/
def mapPyM (f : Json → PyM Json) : List Json → PyM (List Json)
  | [] => .ok []
  | x :: xs => do
      let y ← f x
      let ys ← mapPyM f xs
      return y :: ys

/-- Result construction of `get_active_workflows` (lines 61-77). -/
def mkWorkflowsResult (workflows : List Json) : PyM Json := do
  let summaries ← mapPyM wfSummaryEntry workflows
  let names ← mapPyM wfName workflows
  return .obj [
    (.str "total_active", .num (workflows.length : ℚ)),
    (.str "workflows", .arr summaries),
    (.str "summary", .obj [
      (.str "total", .num (workflows.length : ℚ)),
      (.str "names", .arr names)])]

/-- Body of the `try` block of `get_active_workflows` (lines 29-77). -/
def getActiveWorkflowsBody (http : Http) (url : String) : PyM Json := do
  let data ← fetchJson http url (.obj [(.str "action", .str "get_active_workflows")])
  match data with
  | .arr items =>
      let workflows := items.filter Json.isDict
      if workflows.isEmpty && !items.isEmpty then
        return .obj [(.str "error", .str "Webhook returned invalid data format")]
      else
        mkWorkflowsResult workflows
  | .obj kvs =>
      match alGet kvs (.str "data") with
      | some d => do
          let workflows ← pyIter d
          mkWorkflowsResult workflows
      | none => return .obj [(.str "error", .str "Unexpected response format")]
  | other =>
      return .obj [(.str "error", .str ("Unexpected response type: " ++ other.typeName))]

/-- `N8nMonitor.get_active_workflows` (lines 23-84).  `url` is
`self.webhook_url`; `tb` is the value of `traceback.format_exc()` inside the
handlers. -/
def get_active_workflows (http : Http) (url tb : String) : Json :=
  if url = "" then .obj [(.str "error", .str "N8N_WEBHOOK_URL environment variable not set")]
  else
    match getActiveWorkflowsBody http url with
    | .ok j => j
    | .error (.request m) =>
        .obj [(.str "error", .str ("Failed to fetch workflows: " ++ m ++ " \n " ++ tb))]
    | .error (.other m) =>
        .obj [(.str "error", .str ("Unexpected error: " ++ m ++ " \n " ++ tb))]

/-- Python `x.rstrip("%")`: raises `AttributeError` unless `x` is a
string. -/
def pyRstrip (j : Json) : PyM String :=
  match j with
  | .str s => .ok (stripPct s)
  | j => .error (.other ("AttributeError: \x27" ++ j.typeName ++
      "\x27 object has no attribute \x27rstrip\x27"))

/-- Python `float(s)` on a string; `ValueError` when unparsable. -/
def pyFloat (s : String) : PyM ℚ :=
  match parseFloat? s with
  | some q => .ok q
  | none => .error (.other ("ValueError: could not convert string to float: \x27" ++ s ++ "\x27"))

/-- Python `x[key]`: `KeyError` on a missing dict key, `TypeError` on a
non-dict (the source only subscripts dicts through this helper). -/
def pySubscript (j key : Json) : PyM Json :=
  match j with
  | .obj kvs =>
      match alGet kvs key with
      | some v => .ok v
      | none => .error (.other ("KeyError: " ++ key.reprPy))
  | j => .error (.other ("TypeError: \x27" ++ j.typeName ++
      "\x27 object is not subscriptable"))

/-- Python `x[0]`. -/
def pyIndex0 (j : Json) : PyM Json :=
  match j with
  | .arr (x :: _) => .ok x
  | .arr [] => .error (.other "IndexError: list index out of range")
  | .str s =>
      match s.toList with
      | c :: _ => .ok (.str (String.singleton c))
      | [] => .error (.other "IndexError: string index out of range")
  | .obj kvs =>
      match alGet kvs (.num 0) with
      | some v => .ok v
      | none => .error (.other "KeyError: 0")
  | j => .error (.other ("TypeError: \x27" ++ j.typeName ++
      "\x27 object is not subscriptable"))

/-- Python `len(x)`. -/
def pyLen (j : Json) : PyM Nat :=
  match j with
  | .arr xs => .ok xs.length
  | .str s => .ok s.length
  | .obj kvs => .ok kvs.length
  | j => .error (.other ("TypeError: object of type \x27" ++ j.typeName ++
      "\x27 has no len()"))

/-- Python `x.items()`: `AttributeError` unless `x` is a dict. -/
def pyItems (j : Json) : PyM (List (Json × Json)) :=
  match j with
  | .obj kvs => .ok kvs
  | j => .error (.other ("AttributeError: \x27" ++ j.typeName ++
      "\x27 object has no attribute \x27items\x27"))

/-- Body of the `try` block of `get_workflow_executions` (lines 96-131).
Line 113-114 of the source replaces ANY non-empty list response by its first
element (`if isinstance(data, list) and len(data) > 0: data = data[0]`); the
KPI branch then parses `summary.failureRate`, classifies against the 10 and
25 thresholds, and inserts the `insights` key into the (mutated) dict. -/
def getWorkflowExecutionsBody (http : Http) (url : String) (limit : Int)
    (includesKpis : Bool) : PyM Json := do
  let data0 ← fetchJson http url (.obj [
    (.str "action", .str "get_workflow_executions"),
    (.str "limit", .num (limit : ℚ))])
  let data := match data0 with
    | .arr (x :: _) => x
    | d => d
  if includesKpis then
    match data with
    | .obj kvs =>
        match alGet kvs (.str "summary") with
        | some summary => do
            let frJ ← pyDictGet summary (.str "failureRate") (.str "0")
            let frS ← pyRstrip frJ
            let rate ← pyFloat frS
            let tot ← pyDictGet summary (.str "totalExecutions") (.num 0)
            let frRaw ← pyDictGet summary (.str "failureRate") (.str "0%")
            let insights := Json.obj [
              (.str "health_status", .str (
                if rate < 10 then "🟢 Healthy"
                else if rate < 25 then "🟡 Warning"
                else "🔴 Critical")),
              (.str "message", .str (tot.renderPy ++ " executions with " ++
                frRaw.renderPy ++ " failure rate"))]
            return .obj (alInsert kvs (.str "insights") insights)
        | none => return data
    | _ => return data
  else
    return data

/-- `N8nMonitor.get_workflow_executions` (lines 86-138). -/
def get_workflow_executions (http : Http) (url : String) (limit : Int)
    (includesKpis : Bool) : Json :=
  if url = "" then .obj [(.str "error", .str "N8N_WEBHOOK_URL environment variable not set")]
  else
    match getWorkflowExecutionsBody http url limit includesKpis with
    | .ok j => j
    | .error (.request m) =>
        .obj [(.str "error", .str ("Failed to fetch executions: " ++ m))]
    | .error (.other m) =>
        .obj [(.str "error", .str ("Unexpected error: " ++ m))]

/-- The dict comprehension `{wf["id"]: wf["name"] for wf in ...}` of lines
158-161; later duplicate ids overwrite earlier ones, as in Python. -/
def buildWorkflowNames (wfs : List Json) : PyM (List (Json × Json)) :=
  wfs.foldlM (fun acc wf => do
    let i ← pySubscript wf (.str "id")
    let nm ← pySubscript wf (.str "name")
    return alInsert acc i nm) []

/-- Stable insertion of `x` into a list kept in non-increasing `key` order:
`x` goes after every element whose key is `≥ key x`. -/
def insDescStable {α : Type} (key : α → ℚ) (x : α) : List α → List α
  | [] => [x]
  | y :: ys => if key y < key x then x :: y :: ys else y :: insDescStable key x ys

/-- Python `list.sort(key=..., reverse=True)`: a stable sort into
non-increasing key order (any stable algorithm computes the same list). -/
def pySortDesc {α : Type} (key : α → ℚ) (l : List α) : List α :=
  l.foldl (fun acc x => insDescStable key x acc) []

/-- The categorisation loop of lines 177-188: for each `(wf_id, metrics)`
entry of `allWorkflowMetrics`, parse `metrics.failureRate` (default `"0%"`),
resolve the name through the lookup (fallback `"Unknown (<id>)"`), and route
the `{id, name, metrics}` record to problematic (`rate > 10`) or healthy.
The parsed rate is kept with each problematic record because line 192
recomputes exactly the same expression (same key, same `"0%"` default) as
its sort key. -/
def categorizeMetrics (names : List (Json × Json)) :
    List (Json × Json) → PyM (List (ℚ × Json) × List Json)
  | [] => .ok ([], [])
  | (k, metrics) :: rest => do
      let frJ ← pyDictGet metrics (.str "failureRate") (.str "0%")
      let frS ← pyRstrip frJ
      let rate ← pyFloat frS
      let name := (alGet names k).getD (.str ("Unknown (" ++ k.renderPy ++ ")"))
      let info := Json.obj [(.str "id", k), (.str "name", name), (.str "metrics", metrics)]
      let (prob, healthy) ← categorizeMetrics names rest
      if rate > 10 then
        return ((rate, info) :: prob, healthy)
      else
        return (prob, info :: healthy)

/-- Body of the `try` block of `get_workflow_health_report` (lines 142-197).
`now` is `datetime.now().isoformat()`. -/
def getWorkflowHealthReportBody (http : Http) (url tb now : String)
    (limit : Int) : PyM Json := do
  let execData := get_workflow_executions http url limit true
  if ← pyIn (.str "error") execData then
    return execData
  let workflowsData := get_active_workflows http url tb
  if ← pyIn (.str "error") workflowsData then
    return workflowsData
  let wfList ← pyDictGet workflowsData (.str "workflows") (.arr [])
  let wfItems ← pyIter wfList
  let workflowNames ← buildWorkflowNames wfItems
  let overallHealth ← pyDictGet execData (.str "insights") (.obj [])
  let summary ← pyDictGet execData (.str "summary") (.obj [])
  let execModes ← pyDictGet execData (.str "executionModes") (.obj [])
  let timing ← pyDictGet execData (.str "timing") (.obj [])
  let alerts ← pyDictGet execData (.str "alerts") (.obj [])
  let hasWP ← pyIn (.str "workflowPerformance") execData
  let pair ←
    if hasWP then do
      let wp ← pySubscript execData (.str "workflowPerformance")
      if ← pyIn (.str "allWorkflowMetrics") wp then do
        let awm ← pySubscript wp (.str "allWorkflowMetrics")
        let entries ← pyItems awm
        categorizeMetrics workflowNames entries
      else
        pure (([] : List (ℚ × Json)), ([] : List Json))
    else
      pure (([] : List (ℚ × Json)), ([] : List Json))
  return .obj [
    (.str "generated_at", .str now),
    (.str "overall_health", overallHealth),
    (.str "summary", summary),
    (.str "execution_modes", execModes),
    (.str "timing_metrics", timing),
    (.str "problematic_workflows", .arr ((pySortDesc Prod.fst pair.1).map Prod.snd)),
    (.str "healthy_workflows", .arr pair.2),
    (.str "alerts", alerts)]

/-- `N8nMonitor.get_workflow_health_report` (lines 140-201).  Note the
method performs no webhook-URL check of its own; the configuration error
surfaces through the inner `get_workflow_executions` call and the
`"error" in exec_data` early return. -/
def get_workflow_health_report (http : Http) (url tb now : String) (limit : Int) : Json :=
  match getWorkflowHealthReportBody http url tb now limit with
  | .ok j => j
  | .error e =>
      .obj [(.str "error", .str ("Failed to generate health report: " ++ e.msg))]

/-- One iteration of the execution loop of `get_error_executions`
(lines 245-327).  `lastNode` is the state of the Python local `last_node`
BEFORE this record: `none` means the variable is not yet bound
(`'last_node' in locals()` is false), `some v` that it holds `v`.  The local
is assigned (line 278) only when the record has a dict-valued `data` field,
so it leaks from one iteration to the next.  Returns the appended detail
record and the state of `last_node` after the iteration.  `parseDt`
abstracts `datetime.fromisoformat` composed with the epoch-seconds value of
the instant (`none` = the parse raises, swallowed by the bare `except`). -/
def procExec (parseDt : String → Option ℚ) (lastNode : Option Json)
    (ekvs : List (Json × Json)) : PyM (Json × Option Json) := do
  let dataField := (alGet ekvs (.str "data")).getD .null
  let (errInfo?, nodeDetails?, lastNode1) ←
    match dataField with
    | .obj dkvs => do
        let resultData := (alGet dkvs (.str "resultData")).getD (.obj [])
        let (ei, nd) ←
          match resultData with
          | .obj rkvs =>
              match alGet rkvs (.str "error") with
              | some err => do
                  let msg ← pyDictGet err (.str "message") (.str "Unknown error")
                  let desc ← pyDictGet err (.str "description") .null
                  let hc ← pyDictGet err (.str "httpCode") .null
                  let lvl ← pyDictGet err (.str "level") (.str "error")
                  let ts ← pyDictGet err (.str "timestamp") .null
                  let ei := [(Json.str "message", msg), (Json.str "description", desc),
                    (Json.str "http_code", hc), (Json.str "level", lvl),
                    (Json.str "timestamp", ts)]
                  let nodeV ← pyDictGet err (.str "node") .null
                  let nd :=
                    match nodeV with
                    | .obj nkvs => some [(Json.str "name", (alGet nkvs (.str "name")).getD .null),
                        (Json.str "type", (alGet nkvs (.str "type")).getD .null),
                        (Json.str "id", (alGet nkvs (.str "id")).getD .null),
                        (Json.str "position", (alGet nkvs (.str "position")).getD .null)]
                    | _ => none
                  pure (some ei, nd)
              | none => pure ((none : Option (List (Json × Json))), (none : Option (List (Json × Json))))
          | _ => pure ((none : Option (List (Json × Json))), (none : Option (List (Json × Json))))
        let ln ← pyDictGet resultData (.str "lastNodeExecuted") .null
        pure (ei, nd, some ln)
    | _ => pure ((none : Option (List (Json × Json))), (none : Option (List (Json × Json))), lastNode)
  let trigger ←
    match dataField with
    | .obj dkvs => do
        let resultData := (alGet dkvs (.str "resultData")).getD (.obj [])
        let runData ← pyDictGet resultData (.str "runData") (.obj [])
        match runData with
        | .obj runkvs =>
            match alGet runkvs (.str "Webhook") with
            | some (Json.arr (fw :: _)) => do
                let fwd ← pyDictGet fw (.str "data") .null
                match fwd with
                | .obj fdkvs => do
                    let mainV := (alGet fdkvs (.str "main")).getD (.arr [.arr []])
                    let mainData ← pyIndex0 mainV
                    if mainData.truthy then do
                      let n ← pyLen mainData
                      if n > 0 then do
                        let m0 ← pyIndex0 mainData
                        let triggerJson ← pyDictGet m0 (.str "json") (.obj [])
                        let bodyCond ← pyDictGet triggerJson (.str "body") .null
                        let action ←
                          match bodyCond with
                          | .obj _ => do
                              let b ← pyDictGet triggerJson (.str "body") (.obj [])
                              pyDictGet b (.str "action") .null
                          | _ => pure Json.null
                        let params ← pyDictGet triggerJson (.str "body") .null
                        let em ← pyDictGet triggerJson (.str "executionMode") (.str "production")
                        pure (Json.obj [(.str "action", action), (.str "parameters", params),
                          (.str "execution_mode", em)])
                      else pure (Json.obj [])
                    else pure (Json.obj [])
                | _ => pure (Json.obj [])
            | some _ => pure (Json.obj [])
            | none => pure (Json.obj [])
        | _ => pure (Json.obj [])
    | _ => pure (Json.obj [])
  let started := (alGet ekvs (.str "startedAt")).getD .null
  let stopped := (alGet ekvs (.str "stoppedAt")).getD .null
  let duration : Json :=
    if started.truthy && stopped.truthy then
      match started, stopped with
      | .str s1, .str s2 =>
          match parseDt (s1.replace "Z" "+00:00"), parseDt (s2.replace "Z" "+00:00") with
          | some t1, some t2 => .num (t2 - t1)
          | _, _ => .null
      | _, _ => .null
    else .null
  let wname :=
    match (alGet ekvs (.str "workflowData")).getD .null with
    | .obj wkvs => (alGet wkvs (.str "name")).getD .null
    | _ => .null
  let errorField :=
    match errInfo? with
    | some ei => Json.obj ei
    | none => Json.obj [(.str "message", .str "Error details not available")]
  let failedNode :=
    match nodeDetails? with
    | some nd => Json.obj nd
    | none => Json.obj [(.str "name",
        match lastNode1 with
        | some v => v
        | none => .str "Unknown")]
  let detail := Json.obj [
    (.str "id", (alGet ekvs (.str "id")).getD .null),
    (.str "workflow_name", wname),
    (.str "status", (alGet ekvs (.str "status")).getD (.str "error")),
    (.str "mode", (alGet ekvs (.str "mode")).getD .null),
    (.str "started_at", started),
    (.str "stopped_at", stopped),
    (.str "duration_seconds", duration),
    (.str "finished", (alGet ekvs (.str "finished")).getD (.bool false)),
    (.str "retry_of", (alGet ekvs (.str "retryOf")).getD .null),
    (.str "retry_success_id", (alGet ekvs (.str "retrySuccessId")).getD .null),
    (.str "error", errorField),
    (.str "failed_node", failedNode),
    (.str "trigger", trigger)]
  return (detail, lastNode1)

/-- The loop `for exec in executions` of lines 245-327, threading the
`last_node` local across iterations; non-dict records are skipped
(`continue`) and leave the local untouched. -/
def processExecs (parseDt : String → Option ℚ) :
    Option Json → List Json → PyM (List Json)
  | _, [] => .ok []
  | lastNode, (Json.obj ekvs) :: rest => do
      let (detail, ln2) ← procExec parseDt lastNode ekvs
      let tail ← processExecs parseDt ln2 rest
      return detail :: tail
  | lastNode, _ :: rest => processExecs parseDt lastNode rest

/-- `error_patterns` update for one detail (lines 335-339): create the
`{count: 0, executions: []}` bucket on first sight, then increment and
append the execution id. -/
def updatePatterns (msg execId : Json) :
    List (Json × (Nat × List Json)) → List (Json × (Nat × List Json))
  | [] => [(msg, (1, [execId]))]
  | (k, (c, ids)) :: rest =>
      if k = msg then (k, (c + 1, ids ++ [execId])) :: rest
      else (k, (c, ids)) :: updatePatterns msg execId rest

/-- `node_failures` update for one detail (lines 342-344). -/
def updateNodeFailures (name : Json) : List (Json × Nat) → List (Json × Nat)
  | [] => [(name, 1)]
  | (k, c) :: rest =>
      if k = name then (k, c + 1) :: rest
      else (k, c) :: updateNodeFailures name rest

/-- The summary loop of lines 330-344: group by error message and count
failures per node name, skipping falsy node names. -/
def buildErrSummaries (details : List Json) :
    PyM (List (Json × (Nat × List Json)) × List (Json × Nat)) :=
  details.foldlM (fun acc detail => do
    let errF ← pySubscript detail (.str "error")
    let msg ← pyDictGet errF (.str "message") (.str "Unknown")
    let idV ← pySubscript detail (.str "id")
    let fn ← pySubscript detail (.str "failed_node")
    let nodeName ← pyDictGet fn (.str "name") (.str "Unknown")
    return (updatePatterns msg idV acc.1,
      if nodeName.truthy then updateNodeFailures nodeName acc.2 else acc.2))
    ([], [])

/-- Result construction of `get_error_executions` (lines 346-360). -/
def mkErrorResult (workflowId : String) (details : List Json) : PyM Json := do
  let pair ← buildErrSummaries details
  let wname0 ←
    match details with
    | [] => pure (Json.str "Unknown")
    | d0 :: _ => pySubscript d0 (.str "workflow_name")
  let oldest ←
    match details.getLast? with
    | none => pure Json.null
    | some dl => pySubscript dl (.str "started_at")
  let newest ←
    match details with
    | [] => pure Json.null
    | d0 :: _ => pySubscript d0 (.str "started_at")
  return .obj [
    (.str "workflow_id", .str workflowId),
    (.str "workflow_name", wname0),
    (.str "error_count", .num (details.length : ℚ)),
    (.str "errors", .arr details),
    (.str "summary", .obj [
      (.str "total_errors", .num (details.length : ℚ)),
      (.str "error_patterns", .obj (pair.1.map fun p =>
        (p.1, Json.obj [(.str "count", .num (p.2.1 : ℚ)),
          (.str "executions", .arr p.2.2)]))),
      (.str "failed_nodes", .obj (pair.2.map fun p => (p.1, Json.num (p.2 : ℚ)))),
      (.str "time_range", .obj [(.str "oldest", oldest), (.str "newest", newest)])])]

/-- Body of the `try` block of `get_error_executions` (lines 219-360). -/
def getErrorExecutionsBody (http : Http) (url workflowId : String) (limit : Int)
    (parseDt : String → Option ℚ) : PyM Json := do
  let data ← fetchJson http url (.obj [
    (.str "action", .str "get_execution_details"),
    (.str "limit", .num (limit : ℚ)),
    (.str "workflow_id", .str workflowId)])
  match data with
  | .arr xs => do
      let details ← processExecs parseDt none xs
      mkErrorResult workflowId details
  | .obj kvs =>
      match alGet kvs (.str "data") with
      | some d => do
          let xs ← pyIter d
          let details ← processExecs parseDt none xs
          mkErrorResult workflowId details
      | none => return .obj [(.str "error", .str "Unexpected response format")]
  | _ => return .obj [(.str "error", .str "Unexpected response format")]

/-- `N8nMonitor.get_error_executions` (lines 203-364).  There is NO
webhook-URL guard in this method (unlike the other three): an empty URL
reaches `requests.post` and raises `MissingSchema`, which the blanket
handler of line 362 turns into `{"error": str(e)}`. -/
def get_error_executions (http : Http) (url workflowId : String) (limit : Int)
    (parseDt : String → Option ℚ) : Json :=
  if workflowId = "" then .obj [(.str "error", .str "workflow_id parameter is required")]
  else
    match getErrorExecutionsBody http url workflowId limit parseDt with
    | .ok j => j
    | .error e => .obj [(.str "error", .str e.msg)]


/-! ### Statement-level helpers (not part of the embedded program) -/

/-- A successful HTTP 200 exchange carrying the JSON body `j`. -/
def okResp (j : Json) : Except String HttpResp := .ok ⟨200, "OK", .ok j⟩

/-- The configuration-error result of the guarded operations. -/
def cfgErr : Json := .obj [(.str "error", .str "N8N_WEBHOOK_URL environment variable not set")]

/-- Field projection used to state properties of result dicts (`Json.null`
when absent or not a dict). -/
def jGet (j : Json) (k : String) : Json :=
  match j with
  | .obj kvs => (alGet kvs (.str k)).getD .null
  | _ => .null

/-- Element projection used to state properties of result lists. -/
def jIdx (j : Json) (n : Nat) : Json :=
  match j with
  | .arr xs => xs.getD n .null
  | _ => .null

/-- The sort key of line 192 of the source as a total function:
`float(x["metrics"].get("failureRate", "0%").rstrip("%"))`, with defaults
where the partial steps do not apply. -/
def sortKeyOf (x : Json) : ℚ :=
  match x with
  | .obj kvs =>
      match alGet kvs (.str "metrics") with
      | some (.obj mkvs) =>
          match (alGet mkvs (.str "failureRate")).getD (.str "0%") with
          | .str s => (parseFloat? (stripPct s)).getD 0
          | _ => 0
      | _ => 0
  | _ => 0

/-- One entry of `workflowPerformance.allWorkflowMetrics` together with its
declared failure-rate string and the rational it parses to. -/
structure MetricEntry where
  id : String
  metrics : List (Json × Json)
  rateStr : String
  rate : ℚ

/-- Well-formedness of a metric entry: its `failureRate` field is the string
`rateStr` and that string parses (after `%`-stripping) to `rate`. -/
def MetricEntry.wf (e : MetricEntry) : Prop :=
  alGet e.metrics (.str "failureRate") = some (.str e.rateStr) ∧
    parseFloat? (stripPct e.rateStr) = some e.rate

/-- The executions payload carrying only `workflowPerformance.allWorkflowMetrics`. -/
def execPerfBody (entries : List MetricEntry) : Json :=
  .obj [(.str "workflowPerformance", .obj [(.str "allWorkflowMetrics",
    .obj (entries.map fun e => (.str e.id, .obj e.metrics)))])]

/-- The active-workflows payload wrapping the raw workflow dicts `ws`. -/
def wfDataBody (ws : List (List (Json × Json))) : Json :=
  .obj [(.str "data", .arr (ws.map Json.obj))]

/-- A transport oracle that answers the `get_workflow_executions` action with
`execBody` and every other request with `wfBody`. -/
def twoActionOracle (execBody wfBody : Json) : Http := fun _ payload =>
  match payload with
  | .obj kvs =>
      if alGet kvs (.str "action") = some (.str "get_workflow_executions") then okResp execBody
      else okResp wfBody
  | _ => okResp wfBody

/-- The id-to-name lookup that `get_workflow_health_report` derives from the
summarised workflows of `wfDataBody ws`. -/
def wfNameMap (ws : List (List (Json × Json))) : List (Json × Json) :=
  ws.foldl (fun acc kvs => alInsert acc ((alGet kvs (.str "id")).getD (.str "unknown"))
    ((alGet kvs (.str "name")).getD (.str "Unnamed"))) []

/-- The `{id, name, metrics}` record the health report builds for the metric
entry `e` against an id-to-name lookup, with the `"Unknown (<id>)"`
fallback. -/
def infoEntry (names : List (Json × Json)) (e : MetricEntry) : Json :=
  .obj [(.str "id", .str e.id),
    (.str "name", (alGet names (.str e.id)).getD (.str ("Unknown (" ++ e.id ++ ")"))),
    (.str "metrics", .obj e.metrics)]

/-- `infoEntry` against the lookup derived from `wfDataBody ws`. -/
def infoOf (ws : List (List (Json × Json))) (e : MetricEntry) : Json :=
  infoEntry (wfNameMap ws) e

/-- The problematic records (`rate > 10`) paired with their parsed rates, in
payload order. -/
def probPairs (ws : List (List (Json × Json))) (entries : List MetricEntry) :
    List (ℚ × Json) :=
  (entries.filter fun e => decide (10 < e.rate)).map fun e => (e.rate, infoOf ws e)

/-- The healthy records (`rate ≤ 10`), in payload order. -/
def healthyInfos (ws : List (List (Json × Json))) (entries : List MetricEntry) :
    List Json :=
  (entries.filter fun e => !decide (10 < e.rate)).map (infoOf ws)

/-- The failed-node fields of the details a `processExecs` run produces
(used to state how the `last_node` local behaves); an exception is rendered
as its message so runs that raise remain distinguishable. -/
def failedNodesOf (r : PyM (List Json)) : List Json :=
  match r with
  | .ok ds => ds.map (fun d => jGet d "failed_node")
  | .error e => [.str e.msg]

end N8n

namespace N8n

/-! ### Basic reduction lemmas for the network step -/

/-- A constant 200-oracle makes `fetchJson` return its body. -/
theorem fetchJson_okResp {url : String} (h : url ≠ "") (body p : Json) :
    fetchJson (fun _ _ => okResp body) url p = .ok body := by
  unfold fetchJson requestsPost okResp raiseForStatus respJson
  rw [if_neg h]
  rfl

/-- A failing transport makes `fetchJson` raise a `RequestException`. -/
theorem fetchJson_err {url : String} (h : url ≠ "") (e : String) (p : Json) :
    fetchJson (fun _ _ => Except.error e) url p = .error (.request e) := by
  unfold fetchJson requestsPost
  rw [if_neg h]
  rfl

/-! ### C9 -/

/-- C9: for every transport oracle, URL, limit and timestamp parser, calling
`get_error_executions` with an empty `workflow_id` returns the validation
error result; the result is independent of the oracle, so no HTTP request is
issued. -/
theorem c9_empty_workflow_id (http : Http) (url : String) (limit : Int)
    (parseDt : String → Option ℚ) :
    get_error_executions http url "" limit parseDt
      = .obj [(.str "error", .str "workflow_id parameter is required")] := rfl

/-! ### C1 -/

/-- C1 counterexample: with the webhook URL absent (`url = ""`) and a
non-empty `workflow_id`, `get_error_executions` does NOT return the
deterministic configuration-error result; it returns the `MissingSchema`
exception text instead (the method has no URL guard). -/
theorem c1_counterexample :
    get_error_executions (fun _ _ => Except.error "connection refused") "" "w1" 5 (fun _ => none)
        = .obj [(.str "error", .str missingSchemaMsg)] ∧
      get_error_executions (fun _ _ => Except.error "connection refused") "" "w1" 5 (fun _ => none)
        ≠ cfgErr :=
  ⟨rfl, by decide⟩

/-- C1 amended: with the webhook URL absent, `get_active_workflows`,
`get_workflow_executions` and `get_workflow_health_report` return the
deterministic configuration-error result for EVERY transport oracle (hence
without issuing any HTTP request); `get_error_executions` with a non-empty
`workflow_id` also contacts no oracle, but returns the `MissingSchema`
message of `requests.post` on the empty URL instead of the configuration
error. -/
theorem c1_amended (http : Http) (tb now : String) (limit : Int) (b : Bool)
    (wid : String) (parseDt : String → Option ℚ) (hw : wid ≠ "") :
    get_active_workflows http "" tb = cfgErr ∧
    get_workflow_executions http "" limit b = cfgErr ∧
    get_workflow_health_report http "" tb now limit = cfgErr ∧
    get_error_executions http "" wid limit parseDt
      = .obj [(.str "error", .str missingSchemaMsg)] := by
  refine ⟨rfl, rfl, rfl, ?_⟩
  unfold get_error_executions
  rw [if_neg hw]
  rfl

/-- Closed instance of `c1_amended`. -/
theorem c1_witness :
    get_active_workflows (fun _ _ => Except.error "refused") "" "TB" = cfgErr ∧
    get_workflow_executions (fun _ _ => Except.error "refused") "" 50 true = cfgErr ∧
    get_workflow_health_report (fun _ _ => Except.error "refused") "" "TB" "NOW" 50 = cfgErr ∧
    get_error_executions (fun _ _ => Except.error "refused") "" "w1" 5 (fun _ => none)
      = .obj [(.str "error", .str missingSchemaMsg)] :=
  c1_amended (fun _ _ => Except.error "refused") "TB" "NOW" 50 true "w1" (fun _ => none)
    (by decide)

/-! ### C2 -/

/-- C2 counterexample: on a transport failure `get_error_executions` returns
`{"error": str(e)}`, whose message does not contain `"Failed to fetch"`. -/
theorem c2_counterexample :
    get_error_executions
        (fun _ _ => Except.error "HTTPSConnectionPool(host=h, port=443): Max retries exceeded")
        "https://h" "w1" 5 (fun _ => none)
        = .obj [(.str "error",
            .str "HTTPSConnectionPool(host=h, port=443): Max retries exceeded")] ∧
      strIncl "Failed to fetch".toList
        "HTTPSConnectionPool(host=h, port=443): Max retries exceeded".toList = false :=
  ⟨rfl, by decide⟩

/-- C2 amended: when the transport fails with message `e`, every operation
returns a `{"error": ...}` dict and no exception escapes; the first three
operations prefix the message with `"Failed to fetch ..."`, but
`get_error_executions` returns the bare exception text `e`. -/
theorem c2_amended (e url tb now wid : String) (limit : Int) (b : Bool)
    (parseDt : String → Option ℚ) (hu : url ≠ "") (hw : wid ≠ "") :
    get_active_workflows (fun _ _ => Except.error e) url tb
        = .obj [(.str "error", .str ("Failed to fetch workflows: " ++ e ++ " \n " ++ tb))] ∧
    get_workflow_executions (fun _ _ => Except.error e) url limit b
        = .obj [(.str "error", .str ("Failed to fetch executions: " ++ e))] ∧
    get_workflow_health_report (fun _ _ => Except.error e) url tb now limit
        = .obj [(.str "error", .str ("Failed to fetch executions: " ++ e))] ∧
    get_error_executions (fun _ _ => Except.error e) url wid limit parseDt
        = .obj [(.str "error", .str e)] := by
  have hE : ∀ bb : Bool, get_workflow_executions (fun _ _ => Except.error e) url limit bb
      = .obj [(.str "error", .str ("Failed to fetch executions: " ++ e))] := by
    intro bb
    unfold get_workflow_executions getWorkflowExecutionsBody
    rw [if_neg hu, fetchJson_err hu]
    rfl
  refine ⟨?_, hE b, ?_, ?_⟩
  · unfold get_active_workflows getActiveWorkflowsBody
    rw [if_neg hu, fetchJson_err hu]
    rfl
  · unfold get_workflow_health_report getWorkflowHealthReportBody
    rw [hE true]
    rfl
  · unfold get_error_executions getErrorExecutionsBody
    rw [if_neg hw, fetchJson_err hu]
    rfl

/-- Closed instance of `c2_amended`. -/
theorem c2_witness :
    get_active_workflows (fun _ _ => Except.error "refused") "https://h" "TB"
        = .obj [(.str "error", .str ("Failed to fetch workflows: refused \n TB"))] ∧
    get_workflow_executions (fun _ _ => Except.error "refused") "https://h" 50 true
        = .obj [(.str "error", .str "Failed to fetch executions: refused")] ∧
    get_workflow_health_report (fun _ _ => Except.error "refused") "https://h" "TB" "NOW" 50
        = .obj [(.str "error", .str "Failed to fetch executions: refused")] ∧
    get_error_executions (fun _ _ => Except.error "refused") "https://h" "w1" 5 (fun _ => none)
        = .obj [(.str "error", .str "refused")] :=
  c2_amended "refused" "https://h" "TB" "NOW" "w1" 50 true (fun _ => none)
    (by decide) (by decide)

end N8n

namespace N8n

/-! ### C3 -/

/-- C3 counterexample: two records, the first with
`data.resultData.lastNodeExecuted = "NodeA"` and the second with no `data`
at all (hence no error sub-object and no `lastNodeExecuted`).  The claim
predicts `failed_node = {"name": "Unknown"}` for the second record; the code
reports `{"name": "NodeA"}`, leaked from the first record through the
`last_node` local. -/
theorem c3_counterexample :
    jGet (jIdx (jGet (get_error_executions
        (fun _ _ => okResp (.arr [
          .obj [(.str "data", .obj [(.str "resultData",
            .obj [(.str "lastNodeExecuted", .str "NodeA")])])],
          .obj []]))
        "https://h" "w1" 5 (fun _ => none)) "errors") 1) "failed_node"
      = .obj [(.str "name", .str "NodeA")] ∧
    .obj [(.str "name", .str "NodeA")] ≠ Json.obj [(.str "name", .str "Unknown")] :=
  ⟨rfl, by decide⟩

/-- C3 amended: the fallback `failed_node` is governed by the `last_node`
local, which persists across loop iterations.  For every node value `n` and
timestamp parser: a record whose `data.resultData.lastNodeExecuted` is `n`
reports `{"name": n}`, and a following record with no dict `data` field
inherits the same `{"name": n}` rather than `{"name": "Unknown"}`; a record
whose dict `resultData` lacks `lastNodeExecuted` reports `{"name": null}`
(not `"Unknown"`); `{"name": "Unknown"}` appears only while `last_node` has
never been assigned. -/
theorem c3_amended (parseDt : String → Option ℚ) (n : Json) :
    failedNodesOf (processExecs parseDt none [
        .obj [(.str "data", .obj [(.str "resultData",
          .obj [(.str "lastNodeExecuted", n)])])],
        .obj []])
      = [.obj [(.str "name", n)], .obj [(.str "name", n)]] ∧
    failedNodesOf (processExecs parseDt none
        [.obj [(.str "data", .obj [(.str "resultData", .obj [])])]])
      = [.obj [(.str "name", Json.null)]] ∧
    failedNodesOf (processExecs parseDt none [.obj []])
      = [.obj [(.str "name", .str "Unknown")]] :=
  ⟨rfl, rfl, rfl⟩

/-! ### C10 -/

/-- C10 counterexample: a two-element list response is NOT returned
unchanged: `get_workflow_executions` unwraps it to its first element. -/
theorem c10_counterexample :
    get_workflow_executions (fun _ _ => okResp (.arr [.str "a", .str "b"]))
        "https://h" 50 true = .str "a" ∧
      get_workflow_executions (fun _ _ => okResp (.arr [.str "a", .str "b"]))
        "https://h" 50 true ≠ .arr [.str "a", .str "b"] :=
  ⟨rfl, by decide⟩

/-- C10 amended: `get_workflow_executions` unwraps EVERY non-empty list
response to its first element (not only singletons).  After that step, a
non-dict value is returned unchanged with no insights even when KPIs are
requested, and so is a dict lacking a `summary` key; an empty list and a
non-list scalar are returned unchanged; but a list of two or more elements
is returned as its first element, not unchanged. -/
theorem c10_amended :
    (∀ (url : String) (limit : Int) (b : Bool) (x : Json) (xs : List Json),
      url ≠ "" → x.isDict = false →
      get_workflow_executions (fun _ _ => okResp (.arr (x :: xs))) url limit b = x) ∧
    (∀ (url : String) (limit : Int) (b : Bool), url ≠ "" →
      get_workflow_executions (fun _ _ => okResp (.arr [])) url limit b = .arr []) ∧
    (∀ (url : String) (limit : Int) (b : Bool) (j : Json), url ≠ "" →
      j.isDict = false → (∀ ys, j ≠ .arr ys) →
      get_workflow_executions (fun _ _ => okResp j) url limit b = j) ∧
    (∀ (url : String) (limit : Int) (b : Bool) (kvs : List (Json × Json)), url ≠ "" →
      alGet kvs (.str "summary") = none →
      get_workflow_executions (fun _ _ => okResp (.obj kvs)) url limit b = .obj kvs) ∧
    (∀ (url : String) (limit : Int) (kvs : List (Json × Json)) (xs : List Json), url ≠ "" →
      alGet kvs (.str "summary") = none →
      get_workflow_executions (fun _ _ => okResp (.arr (Json.obj kvs :: xs))) url limit true
        = .obj kvs) := by
  refine ⟨?_, ?_, ?_, ?_, ?_⟩
  · intro url limit b x xs hu hx
    unfold get_workflow_executions getWorkflowExecutionsBody
    rw [if_neg hu, fetchJson_okResp hu]
    cases x <;> simp [Json.isDict] at hx ⊢ <;> cases b <;> rfl
  · intro url limit b hu
    unfold get_workflow_executions getWorkflowExecutionsBody
    rw [if_neg hu, fetchJson_okResp hu]
    cases b <;> rfl
  · intro url limit b j hu hj ha
    unfold get_workflow_executions getWorkflowExecutionsBody
    rw [if_neg hu, fetchJson_okResp hu]
    cases j <;> simp [Json.isDict] at hj ⊢ <;> first
      | (cases b <;> rfl)
      | exact absurd rfl (ha _)
  · intro url limit b kvs hu hs
    unfold get_workflow_executions getWorkflowExecutionsBody
    rw [if_neg hu, fetchJson_okResp hu]
    cases b
    · rfl
    · rw [show (Except.ok (Json.obj kvs) : PyM Json) = pure (Json.obj kvs) from rfl]
      rw [pure_bind]
      simp only [hs]
      rfl
  · intro url limit kvs xs hu hs
    unfold get_workflow_executions getWorkflowExecutionsBody
    rw [if_neg hu, fetchJson_okResp hu]
    rw [show (Except.ok (Json.arr (Json.obj kvs :: xs)) : PyM Json) = pure (Json.arr (Json.obj kvs :: xs)) from rfl]
    rw [pure_bind]
    simp only [hs]
    rfl

/-- Closed instance of `c10_amended`. -/
theorem c10_witness :
    get_workflow_executions (fun _ _ => okResp (.arr [.str "a", .str "b"]))
        "https://h" 50 true = .str "a" ∧
    get_workflow_executions (fun _ _ => okResp (.arr [])) "https://h" 50 true = .arr [] ∧
    get_workflow_executions (fun _ _ => okResp (.num 7)) "https://h" 50 true = .num 7 ∧
    get_workflow_executions (fun _ _ => okResp (.obj [(.str "k", .null)]))
        "https://h" 50 true = .obj [(.str "k", .null)] ∧
    get_workflow_executions
        (fun _ _ => okResp (.arr [.obj [(.str "k", .null)], .str "b"]))
        "https://h" 50 true = .obj [(.str "k", .null)] :=
  ⟨c10_amended.1 "https://h" 50 true (.str "a") [.str "b"] (by decide) (by decide),
   c10_amended.2.1 "https://h" 50 true (by decide),
   c10_amended.2.2.1 "https://h" 50 true (.num 7) (by decide) (by decide)
     (fun ys h => Json.noConfusion h),
   c10_amended.2.2.2.1 "https://h" 50 true [(.str "k", .null)] (by decide) (by decide),
   c10_amended.2.2.2.2 "https://h" 50 [(.str "k", .null)] [.str "b"] (by decide) (by decide)⟩

end N8n

namespace N8n

/-! ### C4 / C5: the active-workflow summariser -/

/-- Bind on a succeeded `Except` computation. -/
@[simp] theorem ok_bind {ε α β : Type} (a : α) (f : α → Except ε β) :
    (Except.ok a : Except ε α) >>= f = f a := rfl

/-- Bind on a failed `Except` computation. -/
@[simp] theorem error_bind {ε α β : Type} (e : ε) (f : α → Except ε β) :
    (Except.error e : Except ε α) >>= f = .error e := rfl

/-- The summary comprehension succeeds on a list of dicts, producing the
five-field records. -/
theorem mapM_wfSummaryEntry (ws : List (List (Json × Json))) :
    mapPyM wfSummaryEntry (ws.map Json.obj) = Except.ok (ws.map summarizeWf) := by
  induction ws with
  | nil => rfl
  | cons h t ih => simp [mapPyM, wfSummaryEntry, ih]

/-- The names comprehension succeeds on a list of dicts. -/
theorem mapM_wfName (ws : List (List (Json × Json))) :
    mapPyM wfName (ws.map Json.obj)
      = Except.ok (ws.map fun kvs => (alGet kvs (.str "name")).getD (.str "Unnamed")) := by
  induction ws with
  | nil => rfl
  | cons h t ih => simp [mapPyM, wfName, ih]

/-- General shape of a successful `get_active_workflows` call on a
`{"data": [...]}` response whose elements are dicts. -/
theorem getActiveWorkflows_spec (url tb : String) (hu : url ≠ "")
    (ws : List (List (Json × Json))) :
    get_active_workflows (fun _ _ => okResp (wfDataBody ws)) url tb
      = .obj [(.str "total_active", .num ((ws.length : ℚ))),
          (.str "workflows", .arr (ws.map summarizeWf)),
          (.str "summary", .obj [(.str "total", .num ((ws.length : ℚ))),
            (.str "names", .arr (ws.map fun kvs =>
              (alGet kvs (.str "name")).getD (.str "Unnamed")))])] := by
  unfold get_active_workflows getActiveWorkflowsBody
  rw [if_neg hu, fetchJson_okResp hu]
  simp only [wfDataBody, ok_bind]
  simp [pyIter, mkWorkflowsResult, mapM_wfSummaryEntry, mapM_wfName, alGet]

end N8n

namespace N8n

/-- C4: on a well-formed workflow list response (a `{"data": [...]}` body
whose elements are dicts), `total_active` and `summary.total` equal the
number of workflows, and every summary record carries the five fields with
the documented defaults (`id` → `"unknown"`, `name` → `"Unnamed"`,
`created`/`updated` → `""`, `archived` ← `isArchived == "true"`). -/
theorem c4_active_workflows_shape (url tb : String) (hu : url ≠ "")
    (ws : List (List (Json × Json))) :
    get_active_workflows (fun _ _ => okResp (wfDataBody ws)) url tb
      = .obj [(.str "total_active", .num ((ws.length : ℚ))),
          (.str "workflows", .arr (ws.map summarizeWf)),
          (.str "summary", .obj [(.str "total", .num ((ws.length : ℚ))),
            (.str "names", .arr (ws.map fun kvs =>
              (alGet kvs (.str "name")).getD (.str "Unnamed")))])] :=
  getActiveWorkflows_spec url tb hu ws

/-- Closed instance of `c4_active_workflows_shape`: the end-to-end scenario
of the specification, `{"data":[{"id":"w1","name":"Test","isArchived":"true"}]}`. -/
theorem c4_witness :
    get_active_workflows (fun _ _ => okResp (wfDataBody
        [[(.str "id", .str "w1"), (.str "name", .str "Test"),
          (.str "isArchived", .str "true")]])) "https://h" "TB"
      = .obj [(.str "total_active", .num 1),
          (.str "workflows", .arr [.obj [(.str "id", .str "w1"), (.str "name", .str "Test"),
            (.str "created", .str ""), (.str "updated", .str ""),
            (.str "archived", .bool true)]]),
          (.str "summary", .obj [(.str "total", .num 1),
            (.str "names", .arr [.str "Test"])])] :=
  (c4_active_workflows_shape "https://h" "TB" (by decide)
    [[(.str "id", .str "w1"), (.str "name", .str "Test"),
      (.str "isArchived", .str "true")]]).trans (by decide)

/-- C5: the `archived` flag of a workflow record is true exactly when the
raw `isArchived` value equals the STRING `"true"`; any other value (boolean
`true`, the string `"True"`, an absent field) yields false. -/
theorem c5_archived_exact_string (v : Json) (url tb : String) (hu : url ≠ "") :
    get_active_workflows (fun _ _ => okResp (wfDataBody [[(.str "isArchived", v)]])) url tb
      = .obj [(.str "total_active", .num 1),
          (.str "workflows", .arr [.obj [(.str "id", .str "unknown"),
            (.str "name", .str "Unnamed"), (.str "created", .str ""),
            (.str "updated", .str ""),
            (.str "archived", .bool (decide (v = .str "true")))]]),
          (.str "summary", .obj [(.str "total", .num 1),
            (.str "names", .arr [.str "Unnamed"])])] := by
  refine (getActiveWorkflows_spec url tb hu _).trans ?_
  simp [summarizeWf, alGet]

/-- Closed instances of `c5_archived_exact_string`: boolean `true` and the
string `"True"` give `archived = false`; only the string `"true"` gives
`archived = true`. -/
theorem c5_witness :
    (jGet (jIdx (jGet (get_active_workflows
        (fun _ _ => okResp (wfDataBody [[(.str "isArchived", .bool true)]]))
        "https://h" "TB") "workflows") 0) "archived" = .bool false) ∧
    (jGet (jIdx (jGet (get_active_workflows
        (fun _ _ => okResp (wfDataBody [[(.str "isArchived", .str "True")]]))
        "https://h" "TB") "workflows") 0) "archived" = .bool false) ∧
    (jGet (jIdx (jGet (get_active_workflows
        (fun _ _ => okResp (wfDataBody [[(.str "isArchived", .str "true")]]))
        "https://h" "TB") "workflows") 0) "archived" = .bool true) :=
  ⟨by rw [c5_archived_exact_string (.bool true) "https://h" "TB" (by decide)]; decide,
   by rw [c5_archived_exact_string (.str "True") "https://h" "TB" (by decide)]; decide,
   by rw [c5_archived_exact_string (.str "true") "https://h" "TB" (by decide)]; decide⟩

end N8n

namespace N8n

/-- C6: when KPIs are requested and the (normalised) payload is a dict with
a `summary` whose `failureRate` is a percentage string parsing to `q`, the
attached `insights.health_status` is Healthy for `q < 10`, Warning for
`10 ≤ q < 25` and Critical otherwise, and `insights.message` interpolates
the total executions and the raw failure-rate string. -/
theorem c6_kpi_thresholds (sm : List (Json × Json)) (s : String) (q : ℚ)
    (url : String) (limit : Int) (hu : url ≠ "")
    (hfr : alGet sm (.str "failureRate") = some (.str s))
    (hq : parseFloat? (stripPct s) = some q) :
    get_workflow_executions (fun _ _ => okResp (.obj [(.str "summary", .obj sm)])) url limit true
      = .obj [(.str "summary", .obj sm),
          (.str "insights", .obj [
            (.str "health_status", .str (if q < 10 then "🟢 Healthy"
              else if q < 25 then "🟡 Warning" else "🔴 Critical")),
            (.str "message", .str (((alGet sm (.str "totalExecutions")).getD (.num 0)).renderPy
              ++ " executions with " ++ s ++ " failure rate"))])] := by
  unfold get_workflow_executions getWorkflowExecutionsBody
  rw [if_neg hu, fetchJson_okResp hu]
  simp only [ok_bind]
  simp [alGet, pyDictGet, hfr, pyRstrip, pyFloat, hq, alInsert, Json.renderPy]

/-- Closed instances of `c6_kpi_thresholds` at the boundary rates `"9.9%"`,
`"10%"`, `"24.9%"` and `"25%"`. -/
theorem c6_witness :
    (jGet (jGet (get_workflow_executions
        (fun _ _ => okResp (.obj [(.str "summary",
          .obj [(.str "failureRate", .str "9.9%")])])) "https://h" 50 true)
        "insights") "health_status" = .str "🟢 Healthy") ∧
    (jGet (jGet (get_workflow_executions
        (fun _ _ => okResp (.obj [(.str "summary",
          .obj [(.str "failureRate", .str "10%"), (.str "totalExecutions", .num 50)])]))
        "https://h" 50 true) "insights")
        "health_status" = .str "🟡 Warning") ∧
    (jGet (jGet (get_workflow_executions
        (fun _ _ => okResp (.obj [(.str "summary",
          .obj [(.str "failureRate", .str "10%"), (.str "totalExecutions", .num 50)])]))
        "https://h" 50 true) "insights")
        "message" = .str "50 executions with 10% failure rate") ∧
    (jGet (jGet (get_workflow_executions
        (fun _ _ => okResp (.obj [(.str "summary",
          .obj [(.str "failureRate", .str "24.9%")])])) "https://h" 50 true)
        "insights") "health_status" = .str "🟡 Warning") ∧
    (jGet (jGet (get_workflow_executions
        (fun _ _ => okResp (.obj [(.str "summary",
          .obj [(.str "failureRate", .str "25%")])])) "https://h" 50 true)
        "insights") "health_status" = .str "🔴 Critical") :=
  ⟨by rw [c6_kpi_thresholds [(.str "failureRate", .str "9.9%")] "9.9%" (mkRat 99 10)
        "https://h" 50 (by decide) (by decide) (by decide)]; decide,
   by rw [c6_kpi_thresholds [(.str "failureRate", .str "10%"), (.str "totalExecutions", .num 50)]
        "10%" (mkRat 10 1) "https://h" 50 (by decide) (by decide) (by decide)]; decide,
   by rw [c6_kpi_thresholds [(.str "failureRate", .str "10%"), (.str "totalExecutions", .num 50)]
        "10%" (mkRat 10 1) "https://h" 50 (by decide) (by decide) (by decide)]; decide,
   by rw [c6_kpi_thresholds [(.str "failureRate", .str "24.9%")] "24.9%" (mkRat 249 10)
        "https://h" 50 (by decide) (by decide) (by decide)]; decide,
   by rw [c6_kpi_thresholds [(.str "failureRate", .str "25%")] "25%" (mkRat 25 1)
        "https://h" 50 (by decide) (by decide) (by decide)]; decide⟩

end N8n

namespace N8n

/-! ### C7 / C8: the health report -/

/-- `fetchJson` against any oracle that answers this request with a 200
response. -/
theorem fetchJson_resp (http : Http) {url : String} (p : Json) (hu : url ≠ "")
    (body : Json) (hr : http url p = okResp body) :
    fetchJson http url p = .ok body := by
  unfold fetchJson requestsPost
  rw [if_neg hu, hr]
  rfl

/-- A dict response without a `summary` key passes through
`get_workflow_executions` unchanged (general-oracle version). -/
theorem getWorkflowExecutions_noSummary (http : Http) {url : String} (limit : Int)
    (kvs : List (Json × Json)) (hu : url ≠ "")
    (hr : http url (.obj [(.str "action", .str "get_workflow_executions"),
      (.str "limit", .num (limit : ℚ))]) = okResp (.obj kvs))
    (hs : alGet kvs (.str "summary") = none) :
    get_workflow_executions http url limit true = .obj kvs := by
  unfold get_workflow_executions getWorkflowExecutionsBody
  rw [if_neg hu, fetchJson_resp http _ hu _ hr]
  simp only [ok_bind]
  simp only [hs]
  rfl

/-- `get_active_workflows` against any oracle answering with
`wfDataBody ws`. -/
theorem getActiveWorkflows_resp (http : Http) {url : String} (tb : String)
    (hu : url ≠ "") (ws : List (List (Json × Json)))
    (hr : http url (.obj [(.str "action", .str "get_active_workflows")])
      = okResp (wfDataBody ws)) :
    get_active_workflows http url tb
      = .obj [(.str "total_active", .num ((ws.length : ℚ))),
          (.str "workflows", .arr (ws.map summarizeWf)),
          (.str "summary", .obj [(.str "total", .num ((ws.length : ℚ))),
            (.str "names", .arr (ws.map fun kvs =>
              (alGet kvs (.str "name")).getD (.str "Unnamed")))])] := by
  unfold get_active_workflows getActiveWorkflowsBody
  rw [if_neg hu, fetchJson_resp http _ hu _ hr]
  simp only [wfDataBody, ok_bind]
  simp [pyIter, mkWorkflowsResult, mapM_wfSummaryEntry, mapM_wfName, alGet]

/-- The name-map comprehension over summarised workflows succeeds and
computes `wfNameMap`. -/
theorem buildWorkflowNames_summarized (ws : List (List (Json × Json))) :
    buildWorkflowNames (ws.map summarizeWf) = .ok (wfNameMap ws) := by
  have go : ∀ acc : List (Json × Json),
      (ws.map summarizeWf).foldlM (fun acc wf => do
        let i ← pySubscript wf (.str "id")
        let nm ← pySubscript wf (.str "name")
        return alInsert acc i nm) acc
      = .ok (ws.foldl (fun acc kvs =>
          alInsert acc ((alGet kvs (.str "id")).getD (.str "unknown"))
            ((alGet kvs (.str "name")).getD (.str "Unnamed"))) acc) := by
    induction ws with
    | nil => intro acc; rfl
    | cons h t ih =>
        intro acc
        simp only [List.map_cons, List.foldlM_cons, List.foldl_cons]
        rw [show pySubscript (summarizeWf h) (.str "id")
            = .ok ((alGet h (.str "id")).getD (.str "unknown")) from rfl]
        simp only [ok_bind]
        rw [show pySubscript (summarizeWf h) (.str "name")
            = .ok ((alGet h (.str "name")).getD (.str "Unnamed")) from rfl]
        simp only [ok_bind]
        exact ih _
  exact go []

/-- The categorisation loop on well-formed metric entries: problematic
records (with their parsed rates) and healthy records, both in payload
order. -/
theorem categorizeMetrics_spec (names : List (Json × Json))
    (entries : List MetricEntry) (h : ∀ e ∈ entries, e.wf) :
    categorizeMetrics names (entries.map fun e => (.str e.id, .obj e.metrics))
      = .ok ((entries.filter fun e => decide (10 < e.rate)).map
              (fun e => (e.rate, infoEntry names e)),
             (entries.filter fun e => !decide (10 < e.rate)).map (infoEntry names)) := by
  induction entries with
  | nil => rfl
  | cons e rest ih =>
      obtain ⟨hfr, hq⟩ := h e (List.mem_cons_self e rest)
      have ih2 := ih fun x hx => h x (List.mem_cons_of_mem e hx)
      simp only [List.map_cons]
      unfold categorizeMetrics
      rw [show pyDictGet (.obj e.metrics) (.str "failureRate") (.str "0%")
          = .ok ((alGet e.metrics (.str "failureRate")).getD (.str "0%")) from rfl]
      rw [hfr]
      simp only [Option.getD_some, ok_bind]
      rw [show pyRstrip (.str e.rateStr) = .ok (stripPct e.rateStr) from rfl]
      simp only [ok_bind]
      rw [show pyFloat (stripPct e.rateStr)
          = (match parseFloat? (stripPct e.rateStr) with
             | some q => Except.ok q
             | none => Except.error (.other ("ValueError: could not convert string to float: \x27"
                 ++ stripPct e.rateStr ++ "\x27"))) from rfl]
      rw [hq]
      simp only [ok_bind, ih2]
      by_cases h10 : (10 : ℚ) < e.rate
      · simp [h10, infoEntry, Json.renderPy]
        rfl
      · simp [h10, infoEntry, Json.renderPy]
        rfl

end N8n

namespace N8n

/-- General shape of a successful health report: the two webhook calls are
answered by `twoActionOracle`, the metric entries are well formed, and the
report partitions them by the strict `> 10` threshold with
`problematic_workflows` descending by parsed rate. -/
theorem healthReport_spec (url tb now : String) (limit : Int) (hu : url ≠ "")
    (ws : List (List (Json × Json))) (entries : List MetricEntry)
    (h : ∀ e ∈ entries, e.wf) :
    get_workflow_health_report (twoActionOracle (execPerfBody entries) (wfDataBody ws))
        url tb now limit
      = .obj [(.str "generated_at", .str now),
          (.str "overall_health", .obj []),
          (.str "summary", .obj []),
          (.str "execution_modes", .obj []),
          (.str "timing_metrics", .obj []),
          (.str "problematic_workflows",
            .arr ((pySortDesc Prod.fst (probPairs ws entries)).map Prod.snd)),
          (.str "healthy_workflows", .arr (healthyInfos ws entries)),
          (.str "alerts", .obj [])] := by
  have hrE : twoActionOracle (execPerfBody entries) (wfDataBody ws) url
      (.obj [(.str "action", .str "get_workflow_executions"), (.str "limit", .num (limit : ℚ))])
      = okResp (execPerfBody entries) := by
    simp [twoActionOracle, alGet]
  have hrW : twoActionOracle (execPerfBody entries) (wfDataBody ws) url
      (.obj [(.str "action", .str "get_active_workflows")])
      = okResp (wfDataBody ws) := by
    simp [twoActionOracle, alGet]
  have hexec : get_workflow_executions (twoActionOracle (execPerfBody entries) (wfDataBody ws))
      url limit true = execPerfBody entries :=
    getWorkflowExecutions_noSummary _ limit _ hu hrE (by simp [alGet])
  have hwf : get_active_workflows (twoActionOracle (execPerfBody entries) (wfDataBody ws)) url tb
      = .obj [(.str "total_active", .num ((ws.length : ℚ))),
          (.str "workflows", .arr (ws.map summarizeWf)),
          (.str "summary", .obj [(.str "total", .num ((ws.length : ℚ))),
            (.str "names", .arr (ws.map fun kvs =>
              (alGet kvs (.str "name")).getD (.str "Unnamed")))])] :=
    getActiveWorkflows_resp _ tb hu ws hrW
  unfold get_workflow_health_report getWorkflowHealthReportBody
  rw [hexec, hwf]
  simp [execPerfBody, pyIn, pyDictGet, pyIter, pySubscript, pyItems, alGet,
    buildWorkflowNames_summarized, categorizeMetrics_spec (wfNameMap ws) entries h,
    probPairs, healthyInfos, infoOf]

end N8n

namespace N8n

/-- Membership through stable descending insertion. -/
theorem mem_insDescStable {α : Type} (key : α → ℚ) (x z : α) (l : List α) :
    z ∈ insDescStable key x l ↔ z = x ∨ z ∈ l := by
  induction l with
  | nil => simp [insDescStable]
  | cons y ys ih =>
      by_cases hk : key y < key x
      · simp [insDescStable, hk]
      · simp [insDescStable, hk, ih]
        tauto

/-- Stable descending insertion preserves non-increasing key order. -/
theorem insDescStable_pairwise {α : Type} (key : α → ℚ) (x : α) (l : List α)
    (h : l.Pairwise (fun a b => key b ≤ key a)) :
    (insDescStable key x l).Pairwise (fun a b => key b ≤ key a) := by
  induction l with
  | nil => simp [insDescStable]
  | cons y ys ih =>
      rw [List.pairwise_cons] at h
      obtain ⟨hy, hys⟩ := h
      by_cases hk : key y < key x
      · rw [show insDescStable key x (y :: ys) = x :: y :: ys from by simp [insDescStable, hk]]
        rw [List.pairwise_cons]
        constructor
        · intro z hz
          rcases List.mem_cons.mp hz with rfl | hz2
          · exact le_of_lt hk
          · exact (hy z hz2).trans (le_of_lt hk)
        · rw [List.pairwise_cons]
          exact ⟨hy, hys⟩
      · rw [show insDescStable key x (y :: ys) = y :: insDescStable key x ys from by
            simp [insDescStable, hk]]
        rw [List.pairwise_cons]
        refine ⟨?_, ih hys⟩
        intro z hz
        rcases (mem_insDescStable key x z ys).mp hz with rfl | hz2
        · exact not_lt.mp hk
        · exact hy z hz2

/-- The Python descending sort produces a non-increasing key sequence. -/
theorem pySortDesc_pairwise {α : Type} (key : α → ℚ) (l : List α) :
    (pySortDesc key l).Pairwise (fun a b => key b ≤ key a) := by
  have go : ∀ (m : List α) (acc : List α), acc.Pairwise (fun a b => key b ≤ key a) →
      (m.foldl (fun acc x => insDescStable key x acc) acc).Pairwise
        (fun a b => key b ≤ key a) := by
    intro m
    induction m with
    | nil => intro acc hacc; exact hacc
    | cons x xs ih =>
        intro acc hacc
        exact ih _ (insDescStable_pairwise key x acc hacc)
  exact go l [] (by simp)

/-- Every element of the sorted list came from the input. -/
theorem pySortDesc_subset {α : Type} (key : α → ℚ) (l : List α) :
    ∀ z ∈ pySortDesc key l, z ∈ l := by
  have go : ∀ (m acc : List α) (z : α),
      z ∈ m.foldl (fun acc x => insDescStable key x acc) acc → z ∈ acc ∨ z ∈ m := by
    intro m
    induction m with
    | nil => intro acc z hz; exact Or.inl hz
    | cons x xs ih =>
        intro acc z hz
        rcases ih _ z hz with hz2 | hz2
        · rcases (mem_insDescStable key x z acc).mp hz2 with rfl | hz3
          · exact Or.inr (List.mem_cons_self z xs)
          · exact Or.inl hz3
        · exact Or.inr (List.mem_cons_of_mem _ hz2)
  intro z hz
  rcases go l [] z hz with h0 | h1
  · cases h0
  · exact h1

/-- On a well-formed metric entry, the recomputed sort key of line 192
equals the parsed failure rate. -/
theorem sortKeyOf_infoEntry (names : List (Json × Json)) (e : MetricEntry) (he : e.wf) :
    sortKeyOf (infoEntry names e) = e.rate := by
  obtain ⟨hfr, hq⟩ := he
  simp [sortKeyOf, infoEntry, alGet, hfr, hq]

/-- C7: in a successful health report over well-formed metric entries, every
entry with parsed failure rate `> 10` lands in `problematic_workflows` and
every entry with rate `≤ 10` in `healthy_workflows` (in payload order, with
the problematic side then sorted); each record resolves its name through
the active-workflow lookup with the `"Unknown (<id>)"` fallback (visible in
`probPairs`/`healthyInfos` via `infoEntry`). -/
theorem c7_health_partition (url tb now : String) (limit : Int) (hu : url ≠ "")
    (ws : List (List (Json × Json))) (entries : List MetricEntry)
    (h : ∀ e ∈ entries, e.wf) :
    get_workflow_health_report (twoActionOracle (execPerfBody entries) (wfDataBody ws))
        url tb now limit
      = .obj [(.str "generated_at", .str now),
          (.str "overall_health", .obj []),
          (.str "summary", .obj []),
          (.str "execution_modes", .obj []),
          (.str "timing_metrics", .obj []),
          (.str "problematic_workflows",
            .arr ((pySortDesc Prod.fst (probPairs ws entries)).map Prod.snd)),
          (.str "healthy_workflows", .arr (healthyInfos ws entries)),
          (.str "alerts", .obj [])] :=
  healthReport_spec url tb now limit hu ws entries h

/-- Closed instance of `c7_health_partition`: rates 12% and 50% (50% with no
matching active workflow) are problematic and sorted descending, rate
exactly 10% is healthy. -/
theorem c7_witness :
    get_workflow_health_report
        (twoActionOracle
          (execPerfBody [⟨"w1", [(.str "failureRate", .str "12%")], "12%", mkRat 12 1⟩,
            ⟨"w2", [(.str "failureRate", .str "50%")], "50%", mkRat 50 1⟩,
            ⟨"w3", [(.str "failureRate", .str "10%")], "10%", mkRat 10 1⟩])
          (wfDataBody [[(.str "id", .str "w1"), (.str "name", .str "Alpha")]]))
        "https://h" "TB" "NOW" 50
      = .obj [(.str "generated_at", .str "NOW"),
          (.str "overall_health", .obj []),
          (.str "summary", .obj []),
          (.str "execution_modes", .obj []),
          (.str "timing_metrics", .obj []),
          (.str "problematic_workflows", .arr [
            .obj [(.str "id", .str "w2"), (.str "name", .str "Unknown (w2)"),
              (.str "metrics", .obj [(.str "failureRate", .str "50%")])],
            .obj [(.str "id", .str "w1"), (.str "name", .str "Alpha"),
              (.str "metrics", .obj [(.str "failureRate", .str "12%")])]]),
          (.str "healthy_workflows", .arr [
            .obj [(.str "id", .str "w3"), (.str "name", .str "Unknown (w3)"),
              (.str "metrics", .obj [(.str "failureRate", .str "10%")])]]),
          (.str "alerts", .obj [])] :=
  (c7_health_partition "https://h" "TB" "NOW" 50 (by decide)
    [[(.str "id", .str "w1"), (.str "name", .str "Alpha")]]
    [⟨"w1", [(.str "failureRate", .str "12%")], "12%", mkRat 12 1⟩,
     ⟨"w2", [(.str "failureRate", .str "50%")], "50%", mkRat 50 1⟩,
     ⟨"w3", [(.str "failureRate", .str "10%")], "10%", mkRat 10 1⟩]
    (by intro e he; fin_cases he <;> exact ⟨by decide, by decide⟩)).trans (by decide)

/-- C8: the `problematic_workflows` list of a successful health report is in
non-increasing order of the parsed `metrics.failureRate` sort key. -/
theorem c8_problematic_sorted (url tb now : String) (limit : Int) (hu : url ≠ "")
    (ws : List (List (Json × Json))) (entries : List MetricEntry)
    (h : ∀ e ∈ entries, e.wf) :
    ∀ l : List Json,
      jGet (get_workflow_health_report
          (twoActionOracle (execPerfBody entries) (wfDataBody ws)) url tb now limit)
        "problematic_workflows" = .arr l →
      l.Pairwise (fun a b => sortKeyOf b ≤ sortKeyOf a) := by
  intro l hl
  rw [healthReport_spec url tb now limit hu ws entries h] at hl
  simp only [jGet, alGet] at hl
  have key_eq : ∀ p ∈ probPairs ws entries, p.1 = sortKeyOf p.2 := by
    intro p hp2
    simp only [probPairs, List.mem_map, List.mem_filter] at hp2
    obtain ⟨e, ⟨hmem, _⟩, rfl⟩ := hp2
    exact (sortKeyOf_infoEntry (wfNameMap ws) e (h e hmem)).symm
  have hp := pySortDesc_pairwise (Prod.fst (α := ℚ) (β := Json)) (probPairs ws entries)
  have hs : (pySortDesc Prod.fst (probPairs ws entries)).Pairwise
      (fun a b : ℚ × Json => sortKeyOf b.2 ≤ sortKeyOf a.2) := by
    refine List.Pairwise.imp_of_mem ?_ hp
    intro a b ha hb hab
    rw [← key_eq a (pySortDesc_subset _ _ a ha), ← key_eq b (pySortDesc_subset _ _ b hb)]
    exact hab
  have harr : Json.arr ((pySortDesc Prod.fst (probPairs ws entries)).map Prod.snd)
      = Json.arr l := by
    simpa using hl
  have : (pySortDesc Prod.fst (probPairs ws entries)).map Prod.snd = l :=
    Json.arr.inj harr
  rw [← this]
  exact List.pairwise_map.mpr hs

/-- Closed instance of `c8_problematic_sorted` on the same data as
`c7_witness`: the produced list is sorted 50% before 12%. -/
theorem c8_witness :
    List.Pairwise (fun a b => sortKeyOf b ≤ sortKeyOf a) [
      Json.obj [(.str "id", .str "w2"), (.str "name", .str "Unknown (w2)"),
        (.str "metrics", .obj [(.str "failureRate", .str "50%")])],
      Json.obj [(.str "id", .str "w1"), (.str "name", .str "Alpha"),
        (.str "metrics", .obj [(.str "failureRate", .str "12%")])]] :=
  c8_problematic_sorted "https://h" "TB" "NOW" 50 (by decide)
    [[(.str "id", .str "w1"), (.str "name", .str "Alpha")]]
    [⟨"w1", [(.str "failureRate", .str "12%")], "12%", mkRat 12 1⟩,
     ⟨"w2", [(.str "failureRate", .str "50%")], "50%", mkRat 50 1⟩,
     ⟨"w3", [(.str "failureRate", .str "10%")], "10%", mkRat 10 1⟩]
    (by intro e he; fin_cases he <;> exact ⟨by decide, by decide⟩) _ (by decide)

end N8n
